import Mathlib

/-
Verification of the Weather Dashboard repository against its specification.

The client-side pipeline (script.js) is embedded as pure Lean functions:
forecast samples are records over exact rationals (JS numbers are modelled
by rationals, JS Math.round by Mathlib round, which is also floor at x + 1/2),
timestamps are naturals (epoch milliseconds or upstream epoch seconds), and
the calendar-day keying done through Date.toDateString is abstracted as an
arbitrary day-key function on raw timestamps.  The server-side express
handlers (server.js) are embedded as functions from the outcome of each
upstream fetch to the (status, body) pair they respond with.
-/

namespace WeatherDashboard

/-- One raw upstream forecast sample, the element shape of data.list in
script.js: dt is the epoch timestamp in seconds, temp the temperature,
humidity from main.humidity, windSpeed from wind.speed in m/s, main the
weather category token, description and icon from weather[0]. -/
structure ForecastSample where
  dt : Nat
  temp : ℚ
  humidity : ℤ
  windSpeed : ℚ
  main : String
  description : String
  icon : String
deriving DecidableEq

/-- A daily forecast entry as pushed by processForecastData: the Date object
is retained as the sample's raw timestamp, temperature is rounded, wind speed
converted from m/s to km/h by the factor 3.6 and rounded. -/
structure DailyForecastEntry where
  date : Nat
  temp : ℤ
  description : String
  humidity : ℤ
  windSpeed : ℤ
  icon : String
deriving DecidableEq

/-- The entry processForecastData builds from one sample (script.js lines
198-205). -/
def mkDailyEntry (s : ForecastSample) : DailyForecastEntry :=
  { date := s.dt
    temp := round s.temp
    description := s.description
    humidity := s.humidity
    windSpeed := round (s.windSpeed * 3.6)
    icon := s.icon }

/-- The forEach loop of processForecastData: iterate the samples in order,
keep a set of already-processed day keys, and push an entry for the first
sample of each unseen day.  The day key of a sample (Date.toDateString of
its timestamp, a local-calendar-day abstraction) is the parameter dayKey. -/
def dailyLoop (dayKey : Nat → Nat) :
    List ForecastSample → Finset Nat → List DailyForecastEntry
  | [], _ => []
  | s :: rest, seen =>
    if dayKey s.dt ∈ seen then
      dailyLoop dayKey rest seen
    else
      mkDailyEntry s :: dailyLoop dayKey rest (insert (dayKey s.dt) seen)

/-- processForecastData (script.js lines 187-211): run the per-day loop on
an empty seen-set, then return only the first 5 entries (slice(0, 5)). -/
def processForecastData (dayKey : Nat → Nat) (l : List ForecastSample) :
    List DailyForecastEntry :=
  (dailyLoop dayKey l ∅).take 5

/-- Spec-side description of the daily reduction window (spec section 4.2):
the sublist keeping, in original order, the first sample of each calendar
day.  Used to compare processForecastData with the specified policy. -/
def firstSamplesPerDay (dayKey : Nat → Nat) :
    List ForecastSample → Finset Nat → List ForecastSample
  | [], _ => []
  | s :: rest, seen =>
    if dayKey s.dt ∈ seen then
      firstSamplesPerDay dayKey rest seen
    else
      s :: firstSamplesPerDay dayKey rest (insert (dayKey s.dt) seen)

/-- An hourly forecast entry as pushed by processHourlyData: time is the
sample timestamp in epoch milliseconds (the Date built from dt * 1000). -/
structure HourlyForecastEntry where
  time : Nat
  temp : ℤ
  description : String
  icon : String
  humidity : ℤ
  windSpeed : ℤ
deriving DecidableEq

/-- getWeatherIcon (script.js lines 762-781): closed category-to-glyph
table with a default glyph for unrecognized categories. -/
def getWeatherIcon (weatherMain : String) : String :=
  if weatherMain = "Clear" then "☀️"
  else if weatherMain = "Clouds" then "☁️"
  else if weatherMain = "Rain" then "🌧️"
  else if weatherMain = "Snow" then "❄️"
  else if weatherMain = "Thunderstorm" then "⛈️"
  else if weatherMain = "Drizzle" then "🌦️"
  else if weatherMain = "Mist" then "🌫️"
  else if weatherMain = "Fog" then "🌫️"
  else if weatherMain = "Haze" then "🌫️"
  else if weatherMain = "Smoke" then "🌫️"
  else if weatherMain = "Dust" then "🌫️"
  else if weatherMain = "Sand" then "🌫️"
  else if weatherMain = "Ash" then "🌫️"
  else if weatherMain = "Squall" then "💨"
  else if weatherMain = "Tornado" then "🌪️"
  else "🌤️"

/-- The entry processHourlyData builds from one sample (script.js lines
221-228); the icon goes through the category-to-glyph table. -/
def mkHourlyEntry (s : ForecastSample) : HourlyForecastEntry :=
  { time := s.dt * 1000
    temp := round s.temp
    description := s.description
    icon := getWeatherIcon s.main
    humidity := s.humidity
    windSpeed := round (s.windSpeed * 3.6) }

/-- The window test of processHourlyData (script.js line 220): the sample's
time in milliseconds lies strictly after now and at most 24 hours ahead. -/
def hourlyQualifies (now : Nat) (s : ForecastSample) : Bool :=
  decide (now < s.dt * 1000) && decide (s.dt * 1000 ≤ now + 24 * 60 * 60 * 1000)

/-- The forEach loop of processHourlyData: push an hourly entry for every
sample inside the window, in original order. -/
def hourlyLoop (now : Nat) : List ForecastSample → List HourlyForecastEntry
  | [] => []
  | s :: rest =>
    if hourlyQualifies now s then mkHourlyEntry s :: hourlyLoop now rest
    else hourlyLoop now rest

/-- processHourlyData (script.js lines 213-233): run the window loop, then
return at most 24 entries (slice(0, 24)). -/
def processHourlyData (now : Nat) (l : List ForecastSample) :
    List HourlyForecastEntry :=
  (hourlyLoop now l).take 24

lemma dailyLoop_eq_map (dayKey : Nat → Nat) :
    ∀ (l : List ForecastSample) (seen : Finset Nat),
      dailyLoop dayKey l seen = (firstSamplesPerDay dayKey l seen).map mkDailyEntry
  | [], _ => rfl
  | s :: rest, seen => by
    by_cases h : dayKey s.dt ∈ seen <;>
      simp [dailyLoop, firstSamplesPerDay, h, dailyLoop_eq_map dayKey rest]

lemma dailyLoop_length (dayKey : Nat → Nat) :
    ∀ (l : List ForecastSample) (seen : Finset Nat),
      (dailyLoop dayKey l seen).length =
        ((l.map fun s => dayKey s.dt).toFinset \ seen).card
  | [], seen => by simp [dailyLoop]
  | s :: rest, seen => by
    by_cases h : dayKey s.dt ∈ seen
    · rw [dailyLoop, if_pos h, dailyLoop_length dayKey rest seen]
      simp [Finset.insert_sdiff_of_mem _ h]
    · rw [dailyLoop, if_neg h]
      have ih := dailyLoop_length dayKey rest (insert (dayKey s.dt) seen)
      simp only [List.length_cons, ih, List.map_cons, List.toFinset_cons]
      rw [Finset.insert_sdiff_of_not_mem _ h, Finset.sdiff_insert]
      by_cases hm : dayKey s.dt ∈ (rest.map fun x => dayKey x.dt).toFinset \ seen
      · rw [Finset.insert_eq_of_mem hm]
        have := Finset.card_erase_add_one hm
        omega
      · rw [Finset.card_insert_of_not_mem hm,
          Finset.erase_eq_of_not_mem hm]

lemma dailyLoop_keys (dayKey : Nat → Nat) :
    ∀ (l : List ForecastSample) (seen : Finset Nat),
      (∀ e ∈ dailyLoop dayKey l seen, dayKey e.date ∉ seen) ∧
        ((dailyLoop dayKey l seen).map fun e => dayKey e.date).Nodup
  | [], seen => by simp [dailyLoop]
  | s :: rest, seen => by
    by_cases h : dayKey s.dt ∈ seen
    · rw [dailyLoop, if_pos h]
      exact dailyLoop_keys dayKey rest seen
    · rw [dailyLoop, if_neg h]
      obtain ⟨ih1, ih2⟩ := dailyLoop_keys dayKey rest (insert (dayKey s.dt) seen)
      constructor
      · intro e he
        rcases List.mem_cons.mp he with he | he
        · subst he; exact h
        · exact fun hc => ih1 e he (Finset.mem_insert_of_mem hc)
      · rw [List.map_cons, List.nodup_cons]
        refine ⟨?_, ih2⟩
        intro hc
        rcases List.mem_map.mp hc with ⟨e, he, hk⟩
        exact ih1 e he (hk ▸ Finset.mem_insert_self _ _)

/-- Claim C1: the daily reduction returns at most min(5, number of distinct
calendar days among the samples) entries, every emitted calendar-day key is
unique, and the output is exactly the first sample (in original order) of
each calendar day, limited to 5 days, with temperature rounded to the
nearest integer and wind speed converted by the factor 3.6 and rounded. -/
theorem processForecastData_daily_policy (dayKey : Nat → Nat)
    (l : List ForecastSample) :
    (processForecastData dayKey l).length ≤
        min 5 ((l.map fun s => dayKey s.dt).toFinset.card) ∧
      ((processForecastData dayKey l).map fun e => dayKey e.date).Nodup ∧
      processForecastData dayKey l =
        ((firstSamplesPerDay dayKey l ∅).take 5).map mkDailyEntry ∧
      ∀ s : ForecastSample, (mkDailyEntry s).temp = round s.temp ∧
        (mkDailyEntry s).windSpeed = round (s.windSpeed * 3.6) := by
  refine ⟨?_, ?_, ?_, fun s => ⟨rfl, rfl⟩⟩
  · have h := dailyLoop_length dayKey l ∅
    simp only [Finset.sdiff_empty] at h
    simp [processForecastData, List.length_take, h]
  · have h := (dailyLoop_keys dayKey l ∅).2
    rw [processForecastData, List.map_take]
    exact h.sublist (List.take_sublist 5 _)
  · rw [processForecastData, dailyLoop_eq_map, List.map_take]

lemma hourlyLoop_eq (now : Nat) :
    ∀ l : List ForecastSample,
      hourlyLoop now l = (l.filter (hourlyQualifies now)).map mkHourlyEntry
  | [] => rfl
  | s :: rest => by
    cases h : hourlyQualifies now s <;>
      simp [hourlyLoop, List.filter_cons, h, hourlyLoop_eq now rest]

/-- Claim C2: every entry of the hourly reduction has its time strictly after
now and at most 24 hours ahead, at most 24 entries are returned, the output
is the windowed samples mapped to entries in original order, and when fewer
than 24 samples qualify all of them are returned. -/
theorem processHourlyData_window (now : Nat) (l : List ForecastSample) :
    (∀ e ∈ processHourlyData now l,
        now < e.time ∧ e.time ≤ now + 24 * 60 * 60 * 1000) ∧
      (processHourlyData now l).length ≤ 24 ∧
      processHourlyData now l =
        ((l.filter (hourlyQualifies now)).map mkHourlyEntry).take 24 ∧
      ((l.filter (hourlyQualifies now)).length < 24 →
        processHourlyData now l = (l.filter (hourlyQualifies now)).map mkHourlyEntry) := by
  have hq : processHourlyData now l =
      ((l.filter (hourlyQualifies now)).map mkHourlyEntry).take 24 := by
    rw [processHourlyData, hourlyLoop_eq]
  refine ⟨?_, ?_, hq, ?_⟩
  · intro e he
    rw [hq] at he
    have he2 := List.take_subset 24 _ he
    rcases List.mem_map.mp he2 with ⟨s, hs, rfl⟩
    have hsq := (List.mem_filter.mp hs).2
    rw [hourlyQualifies, Bool.and_eq_true, decide_eq_true_eq, decide_eq_true_eq] at hsq
    exact hsq
  · rw [processHourlyData]
    exact List.length_take_le 24 _
  · intro hlt
    rw [hq]
    apply List.take_of_length_le
    rw [List.length_map]
    omega

/-- A concrete forecast sample used to instantiate hypotheses in witnesses. -/
def witnessSample : ForecastSample :=
  { dt := 1, temp := 20, humidity := 60, windSpeed := 5,
    main := "Clear", description := "clear sky", icon := "01d" }

theorem processHourlyData_window_witness :
    ([witnessSample].filter (hourlyQualifies 0)).length < 24 ∧
      processHourlyData 0 [witnessSample] =
        ([witnessSample].filter (hourlyQualifies 0)).map mkHourlyEntry :=
  ⟨by decide, (processHourlyData_window 0 [witnessSample]).2.2.2 (by decide)⟩

/-- getTileX (script.js lines 497-499); JS numbers are modelled as reals and
Math.floor as the integer floor. -/
noncomputable def getTileX (lon : ℝ) (zoom : ℕ) : ℤ :=
  ⌊(lon + 180) / 360 * 2 ^ zoom⌋

/-- getTileY (script.js lines 501-504); Math.log is the natural logarithm
and 1 / Math.cos(latRad) the secant. -/
noncomputable def getTileY (lat : ℝ) (zoom : ℕ) : ℤ :=
  ⌊(1 - Real.log (Real.tan (lat * Real.pi / 180) +
      1 / Real.cos (lat * Real.pi / 180)) / Real.pi) / 2 * 2 ^ zoom⌋

/-- The tile coordinate mapping of the spec: x from the longitude, y from
the latitude, as used by displayWeatherMaps. -/
noncomputable def tileCoords (lat lon : ℝ) (zoom : ℕ) : ℤ × ℤ :=
  (getTileX lon zoom, getTileY lat zoom)

/-- Claim C4: the tile coordinate mapping is deterministic, computes
x = floor((lon + 180) / 360 * 2^zoom) and
y = floor((1 - ln(tan latRad + sec latRad) / pi) / 2 * 2^zoom) with
latRad = lat * pi / 180, and maps (0, 0, 0) to (0, 0). -/
theorem tileCoords_deterministic_origin :
    (∀ (lat lon : ℝ) (zoom : ℕ) (lat2 lon2 : ℝ) (zoom2 : ℕ),
        lat = lat2 → lon = lon2 → zoom = zoom2 →
          tileCoords lat lon zoom = tileCoords lat2 lon2 zoom2) ∧
      (∀ (lon : ℝ) (zoom : ℕ),
        getTileX lon zoom = ⌊(lon + 180) / 360 * 2 ^ zoom⌋) ∧
      (∀ (lat : ℝ) (zoom : ℕ),
        getTileY lat zoom = ⌊(1 - Real.log (Real.tan (lat * Real.pi / 180) +
          1 / Real.cos (lat * Real.pi / 180)) / Real.pi) / 2 * 2 ^ zoom⌋) ∧
      tileCoords 0 0 0 = (0, 0) := by
  refine ⟨?_, fun _ _ => rfl, fun _ _ => rfl, ?_⟩
  · rintro lat lon zoom _ _ _ rfl rfl rfl
    rfl
  · have hx : getTileX 0 0 = 0 := by
      rw [getTileX]
      norm_num
    have hy : getTileY 0 0 = 0 := by
      rw [getTileY]
      rw [zero_mul, zero_div, Real.tan_zero, Real.cos_zero]
      norm_num
    rw [tileCoords, hx, hy]

theorem tileCoords_deterministic_origin_witness :
    ((0 : ℝ) = 0 ∧ (0 : ℝ) = 0 ∧ (0 : ℕ) = 0) ∧
      tileCoords 0 0 0 = tileCoords 0 0 0 :=
  ⟨⟨rfl, rfl, rfl⟩,
    tileCoords_deterministic_origin.1 0 0 0 0 0 0 rfl rfl rfl⟩

/-- addToSearchHistory (script.js lines 524-543): remove any entry equal to
the city under case-insensitive comparison, prepend the city, and keep only
the first 10 entries when the list grew beyond 10.  The JS toLowerCase
normalization is abstracted as the parameter lower, the way toDateString is
abstracted for the daily reduction. -/
def addToSearchHistory (lower : String → String) (history : List String)
    (city : String) : List String :=
  let filtered := history.filter fun item => decide (lower item ≠ lower city)
  let updated := city :: filtered
  if updated.length > 10 then updated.take 10 else updated

lemma length_filter_add_length_filter_not {α : Type} (p : α → Bool) :
    ∀ l : List α, (l.filter p).length + (l.filter fun x => !(p x)).length = l.length
  | [] => rfl
  | a :: l => by
    cases h : p a <;>
      simp [List.filter_cons, h, ← length_filter_add_length_filter_not p l] <;> omega

lemma filter_lower_match_length_one (lower : String → String) (city : String) :
    ∀ l : List String, l.Pairwise (fun a b => lower a ≠ lower b) →
      lower city ∈ l.map lower →
      (l.filter fun x => decide (lower x = lower city)).length = 1
  | [], _, hmem => by simp at hmem
  | a :: l, hnd, hmem => by
    rcases List.pairwise_cons.mp hnd with ⟨ha, hl⟩
    by_cases h : lower a = lower city
    · rw [List.filter_cons_of_pos (by simpa using h)]
      have hnone : (l.filter fun x => decide (lower x = lower city)) = [] := by
        apply List.filter_eq_nil_iff.mpr
        intro b hb
        have hab := ha b hb
        simp only [decide_eq_true_eq]
        intro hc
        exact hab (h.trans hc.symm)
      simp [hnone]
    · rw [List.filter_cons_of_neg (by simpa using h)]
      apply filter_lower_match_length_one lower city l hl
      rcases List.mem_map.mp hmem with ⟨b, hb, hbl⟩
      rcases List.mem_cons.mp hb with rfl | hb2
      · exact absurd hbl h
      · exact List.mem_map.mpr ⟨b, hb2, hbl⟩

/-- Claim C5: addToSearchHistory preserves the search-history invariant
(length at most 10, no two entries equal case-insensitively), and adding an
11th distinct city drops the oldest entry and keeps the length at 10. -/
theorem addToSearchHistory_invariant (lower : String → String)
    (history : List String) (city : String)
    (hnd : history.Pairwise fun a b => lower a ≠ lower b)
    (hlen : history.length ≤ 10) :
    ((addToSearchHistory lower history city).length ≤ 10 ∧
      (addToSearchHistory lower history city).Pairwise
        fun a b => lower a ≠ lower b) ∧
    (history.length = 10 → (∀ x ∈ history, lower x ≠ lower city) →
      addToSearchHistory lower history city = city :: history.dropLast ∧
        (addToSearchHistory lower history city).length = 10) := by
  constructor
  · have hpw : (city :: history.filter fun item =>
        decide (lower item ≠ lower city)).Pairwise
          fun a b => lower a ≠ lower b := by
      rw [List.pairwise_cons]
      refine ⟨?_, hnd.filter _⟩
      intro b hb
      have := (List.mem_filter.mp hb).2
      rw [decide_eq_true_eq] at this
      exact fun hc => this hc.symm
    rw [addToSearchHistory]
    by_cases h : (city :: history.filter fun item =>
        decide (lower item ≠ lower city)).length > 10
    · rw [if_pos h]
      exact ⟨List.length_take_le 10 _,
        hpw.sublist (List.take_sublist 10 _)⟩
    · rw [if_neg h]
      exact ⟨by omega, hpw⟩
  · intro h10 hdist
    have hfe : (history.filter fun item =>
        decide (lower item ≠ lower city)) = history := by
      apply List.filter_eq_self.mpr
      intro a ha
      exact decide_eq_true (hdist a ha)
    rw [addToSearchHistory, hfe]
    have hgt : (city :: history).length > 10 := by simp [h10]
    rw [if_pos hgt]
    have htake : (city :: history).take 10 = city :: history.take 9 := by
      rfl
    rw [htake, List.dropLast_eq_take, h10]
    refine ⟨rfl, ?_⟩
    simp [List.length_take, h10]

theorem addToSearchHistory_invariant_witness :
    (["a", "b", "c", "d", "e", "f", "g", "h", "i", "j"].Pairwise
        fun x y => id x ≠ id y) ∧
      (["a", "b", "c", "d", "e", "f", "g", "h", "i", "j"] : List String).length = 10 ∧
      (∀ x ∈ ["a", "b", "c", "d", "e", "f", "g", "h", "i", "j"], id x ≠ id "K") ∧
      addToSearchHistory id ["a", "b", "c", "d", "e", "f", "g", "h", "i", "j"] "K" =
        "K" :: (["a", "b", "c", "d", "e", "f", "g", "h", "i", "j"] : List String).dropLast ∧
      (addToSearchHistory id
        ["a", "b", "c", "d", "e", "f", "g", "h", "i", "j"] "K").length = 10 :=
  ⟨by decide, by decide, by decide,
    (addToSearchHistory_invariant id ["a", "b", "c", "d", "e", "f", "g", "h", "i", "j"]
      "K" (by decide) (by decide)).2 (by decide) (by decide)⟩

/-- Claim C6: on a valid history already containing the city up to letter
case, addToSearchHistory puts the city at the front, leaves exactly one
case-insensitive entry for it, and keeps the length unchanged. -/
theorem addToSearchHistory_requery (lower : String → String)
    (history : List String) (city : String)
    (hnd : history.Pairwise fun a b => lower a ≠ lower b)
    (hlen : history.length ≤ 10)
    (hmem : lower city ∈ history.map lower) :
    (addToSearchHistory lower history city).head? = some city ∧
      ((addToSearchHistory lower history city).filter fun x =>
          decide (lower x = lower city)).length = 1 ∧
      (addToSearchHistory lower history city).length = history.length := by
  have hone := filter_lower_match_length_one lower city history hnd hmem
  have hpart := length_filter_add_length_filter_not
    (fun x => decide (lower x = lower city)) history
  have hnotform : (history.filter fun x => !(decide (lower x = lower city))) =
      (history.filter fun item => decide (lower item ≠ lower city)) := by
    apply List.filter_congr
    intro a _
    simp [decide_not]
  rw [hnotform, hone] at hpart
  have hflen : (history.filter fun item =>
      decide (lower item ≠ lower city)).length = history.length - 1 := by
    omega
  have hpos : 1 ≤ history.length := by
    rcases List.mem_map.mp hmem with ⟨b, hb, _⟩
    exact List.length_pos.mpr (List.ne_nil_of_mem hb)
  have hnogt : ¬ (city :: history.filter fun item =>
      decide (lower item ≠ lower city)).length > 10 := by
    simp only [List.length_cons, hflen]
    omega
  rw [addToSearchHistory]
  rw [if_neg hnogt]
  refine ⟨rfl, ?_, ?_⟩
  · rw [List.filter_cons_of_pos (by simp)]
    have hnone : ((history.filter fun item =>
        decide (lower item ≠ lower city)).filter fun x =>
          decide (lower x = lower city)) = [] := by
      apply List.filter_eq_nil_iff.mpr
      intro b hb
      have := (List.mem_filter.mp hb).2
      rw [decide_eq_true_eq] at this
      simpa using this
    simp [hnone]
  · simp only [List.length_cons, hflen]
    omega

theorem addToSearchHistory_requery_witness :
    (["London", "Paris"].Pairwise fun x y => id x ≠ id y) ∧
      (["London", "Paris"] : List String).length ≤ 10 ∧
      id "London" ∈ (["London", "Paris"] : List String).map id ∧
      (addToSearchHistory id ["London", "Paris"] "London").head? = some "London" ∧
      ((addToSearchHistory id ["London", "Paris"] "London").filter fun x =>
          decide (id x = id "London")).length = 1 ∧
      (addToSearchHistory id ["London", "Paris"] "London").length =
        (["London", "Paris"] : List String).length :=
  ⟨by decide, by decide, by decide,
    addToSearchHistory_requery id ["London", "Paris"] "London"
      (by decide) (by decide) (by decide)⟩

/-- Outcome of one client-side fetch: the server answered ok with a parsed
body, the server answered non-ok and the parsed error body carries msg, or
the fetch call itself threw with msg. -/
inductive FetchOutcome (α : Type) where
  | ok (v : α)
  | httpErr (msg : String)
  | netErr (msg : String)
deriving DecidableEq

/-- The fields of the current-conditions payload the dashboard reads. -/
structure CurrentWeather where
  name : String
  temp : ℚ
  humidity : ℤ
  windSpeed : ℚ
  main : String
  description : String
  coord : Option (ℚ × ℚ)
deriving DecidableEq

/-- The forecast endpoint's payload: the 3-hour sample list. -/
structure ForecastResponse where
  list : List ForecastSample
deriving DecidableEq

/-- One weather alert as displayed by the dashboard. -/
structure AlertEntry where
  event : String
  description : String
  endTime : Nat
deriving DecidableEq

/-- The alerts endpoint's body as consumed by the dashboard. -/
structure AlertsData where
  alerts : List AlertEntry
deriving DecidableEq

/-- Everything one successful searchWeather run hands to the display calls:
current conditions, the daily and hourly reductions, the optional air
quality payload (of abstract shape) and the alerts body. -/
structure ComposedResult (α : Type) where
  current : CurrentWeather
  daily : List DailyForecastEntry
  hourly : List HourlyForecastEntry
  air : Option α
  alerts : AlertsData
deriving DecidableEq

/-- fetchCurrentWeather (script.js lines 121-132): a non-ok response throws
the error body's message, and a thrown fetch propagates. -/
def fetchCurrentWeatherR (r : FetchOutcome CurrentWeather) :
    Except String CurrentWeather :=
  match r with
  | .ok v => .ok v
  | .httpErr m => .error m
  | .netErr m => .error m

/-- fetchForecast (script.js lines 134-148): a non-ok response throws the
error body's message, a thrown fetch propagates, and a good response is
reduced to the daily view. -/
def fetchForecastR (dayKey : Nat → Nat) (r : FetchOutcome ForecastResponse) :
    Except String (List DailyForecastEntry) :=
  match r with
  | .ok d => .ok (processForecastData dayKey d.list)
  | .httpErr m => .error m
  | .netErr m => .error m

/-- fetchHourlyForecast (script.js lines 150-161): any failure — non-ok
response or thrown fetch — degrades to the empty list. -/
def fetchHourlyForecastR (now : Nat) (r : FetchOutcome ForecastResponse) :
    List HourlyForecastEntry :=
  match r with
  | .ok d => processHourlyData now d.list
  | .httpErr _ => []
  | .netErr _ => []

/-- fetchAirQuality (script.js lines 163-173): any failure degrades to
null, modelled as none. -/
def fetchAirQualityR {α : Type} (r : FetchOutcome α) : Option α :=
  match r with
  | .ok v => some v
  | .httpErr _ => none
  | .netErr _ => none

/-- fetchAlerts (script.js lines 175-185): any failure degrades to an empty
alerts body. -/
def fetchAlertsR (r : FetchOutcome AlertsData) : AlertsData :=
  match r with
  | .ok v => v
  | .httpErr _ => ⟨[]⟩
  | .netErr _ => ⟨[]⟩

/-- searchWeather (script.js lines 79-119) as a function of the outcome of
each of the five sequential fetches: a throw escaping any await lands in
the surrounding catch and the search ends in an error display; otherwise
the composed facets are displayed.  rFor and rForH are the two separate
requests to the forecast endpoint made by fetchForecast and
fetchHourlyForecast. -/
def searchWeather {α : Type} (dayKey : Nat → Nat) (now : Nat)
    (rCur : FetchOutcome CurrentWeather) (rFor rForH : FetchOutcome ForecastResponse)
    (rAir : FetchOutcome α) (rAl : FetchOutcome AlertsData) :
    Except String (ComposedResult α) := do
  let cur ← fetchCurrentWeatherR rCur
  let daily ← fetchForecastR dayKey rFor
  let hourly := fetchHourlyForecastR now rForH
  let air := fetchAirQualityR rAir
  let alerts := fetchAlertsR rAl
  return { current := cur, daily := daily, hourly := hourly,
           air := air, alerts := alerts }

/-- A concrete current-conditions payload for counterexamples. -/
def londonWeather : CurrentWeather :=
  { name := "London", temp := 18, humidity := 65, windSpeed := 5.5,
    main := "Clouds", description := "Partly cloudy",
    coord := some (51.5074, -0.1278) }

/-- Claim C3 counterexample: with current conditions succeeding for London
and the forecast fetch failing upstream, searchWeather does not produce a
composed result — the forecast error aborts the whole search. -/
theorem searchWeather_forecast_failure_aborts :
    searchWeather (α := Nat) (fun dt => dt / 86400) 0
        (.ok londonWeather) (.httpErr "Could not find forecast data for London")
        (.ok ⟨[]⟩) (.ok 1) (.ok ⟨[]⟩) =
      .error "Could not find forecast data for London" := rfl

/-- Claim C3 as amended: a forecast-fetch failure is fatal to the whole
search exactly like a current-conditions failure, whether the response was
non-ok or the fetch threw; only the hourly, air-quality and alerts fetches
are partial-failure tolerant — when current conditions and the forecast
succeed, a composed result is always produced, with those three facets
degraded to empty or absent values on their own failures. -/
theorem searchWeather_error_propagation {α : Type} (dayKey : Nat → Nat)
    (now : Nat) (c : CurrentWeather) (m : String)
    (rForH : FetchOutcome ForecastResponse) (rAir : FetchOutcome α)
    (rAl : FetchOutcome AlertsData) (d : ForecastResponse) :
    searchWeather dayKey now (.ok c) (.httpErr m) rForH rAir rAl = .error m ∧
      searchWeather dayKey now (.ok c) (.netErr m) rForH rAir rAl = .error m ∧
      searchWeather dayKey now (.httpErr m) (.ok d) rForH rAir rAl = .error m ∧
      searchWeather dayKey now (.ok c) (.ok d) rForH rAir rAl =
        .ok { current := c,
              daily := processForecastData dayKey d.list,
              hourly := fetchHourlyForecastR now rForH,
              air := fetchAirQualityR rAir,
              alerts := fetchAlertsR rAl } ∧
      fetchHourlyForecastR now (.httpErr m) = [] ∧
      fetchAirQualityR (α := α) (.httpErr m) = none ∧
      fetchAlertsR (.httpErr m) = ⟨[]⟩ := by
  refine ⟨rfl, rfl, rfl, ?_, rfl, rfl, rfl⟩
  cases rForH <;> cases rAir <;> cases rAl <;> rfl

/-- Outcome of one server-side fetch to the upstream provider: a response
with its HTTP status and parsed body, or a thrown network error. -/
inductive Upstream (α : Type) where
  | resp (status : Nat) (body : α)
  | thrown (msg : String)
deriving DecidableEq

/-- The ok flag of a fetch Response: status in the 200-299 range. -/
def respOk (status : Nat) : Bool :=
  decide (200 ≤ status) && decide (status ≤ 299)

/-- A JSON response body of the express handlers: either the success
payload, or the {error, message} object of the failure branches. -/
inductive ApiBody (α : Type) where
  | payload (v : α)
  | apiError (error : String) (message : String)
deriving DecidableEq

/-- One geocoding match as destructured by the alerts and air-quality
handlers ({lat, lon} of geoData[0]). -/
structure GeoPoint where
  lat : ℚ
  lon : ℚ
deriving DecidableEq

/-- The One Call API body read by the alerts handler: alertsData.alerts may
be absent (the handler substitutes [] through the or-else). -/
structure OneCallBody where
  alerts : Option (List AlertEntry)
deriving DecidableEq

/-- The GET /api/alerts/:city handler (server.js lines 261-315) as a
function of the API-key configuration and the outcomes of its geocoding
fetch and its One Call (alerts) fetch.  The result is the response status
paired with the alerts list served (the payload also carries the city). -/
def alertsHandler (hasKey : Bool) (city : String)
    (geo : Upstream (List GeoPoint)) (alertsR : Upstream OneCallBody) :
    Nat × ApiBody (List AlertEntry) :=
  if !hasKey then
    (500, .apiError "API key not configured"
      "OpenWeatherMap API key is not set on the server")
  else
    match geo with
    | .thrown _ => (200, .payload [])
    | .resp st g =>
      if !respOk st then
        (404, .apiError "City not found" ("Could not find coordinates for " ++ city))
      else if g.isEmpty then
        (404, .apiError "City not found" ("Could not find coordinates for " ++ city))
      else
        match alertsR with
        | .thrown _ => (200, .payload [])
        | .resp st2 b =>
          if !respOk st2 then (200, .payload [])
          else (200, .payload (b.alerts.getD []))

/-- True of an upstream outcome the handlers treat as a failure: a thrown
fetch or a non-ok status. -/
def upstreamFails {α : Type} : Upstream α → Bool
  | .thrown _ => true
  | .resp st _ => !respOk st

/-- Claim C7: whenever the alerts resource itself reports a failure — the
fetch throws (unreachable) or the response is non-ok (unauthorized or any
other failure) — the /api/alerts/:city endpoint answers HTTP 200 with an
empty alerts array, never an error status.  The alerts resource reporting a
failure presupposes it was consulted, i.e. the API key is configured and
geocoding returned at least one match. -/
theorem alertsHandler_degrades (city : String) (st : Nat) (g : List GeoPoint)
    (alertsR : Upstream OneCallBody)
    (hst : respOk st = true) (hg : g.isEmpty = false)
    (hfail : upstreamFails alertsR = true) :
    alertsHandler true city (.resp st g) alertsR = (200, .payload []) := by
  unfold alertsHandler
  simp only [Bool.not_true, Bool.false_eq_true, if_false, hst, Bool.not_true,
    hg, Bool.not_false, if_true]
  cases alertsR with
  | thrown m => rfl
  | resp st2 b =>
    rw [upstreamFails] at hfail
    simp [hfail]

theorem alertsHandler_degrades_witness :
    respOk 200 = true ∧ ([(⟨51, 0⟩ : GeoPoint)].isEmpty = false) ∧
      upstreamFails (Upstream.resp 401 (⟨none⟩ : OneCallBody)) = true ∧
      alertsHandler true "London" (.resp 200 [⟨51, 0⟩])
          (.resp 401 (⟨none⟩ : OneCallBody)) = (200, .payload []) :=
  ⟨by decide, by decide, by decide,
    alertsHandler_degrades "London" 200 [⟨51, 0⟩] (.resp 401 ⟨none⟩)
      (by decide) (by decide) (by decide)⟩

/-- The GET /api/weather/:city handler (server.js lines 85-112) as a
function of the API-key configuration and the upstream fetch outcome; the
raw upstream body is passed through as an opaque string. -/
def weatherHandler (hasKey : Bool) (city : String) (r : Upstream String) :
    Nat × ApiBody String :=
  if !hasKey then
    (500, .apiError "API key not configured"
      "OpenWeatherMap API key is not set on the server")
  else
    match r with
    | .thrown _ => (500, .apiError "Internal server error" "Failed to fetch weather data")
    | .resp st body =>
      if !respOk st then
        (404, .apiError "City not found" ("Could not find weather data for " ++ city))
      else (200, .payload body)

/-- Claim C8 counterexample: an upstream 503 — a non-success status that is
not resource-not-found — is answered with 404 City-not-found, not with the
500 UpstreamError the claim requires; the handler collapses every upstream
non-success status into the not-found response. -/
theorem weatherHandler_collapses_statuses :
    weatherHandler true "London" (.resp 503 "upstream unavailable") =
        (404, .apiError "City not found" "Could not find weather data for London") ∧
      (404 : Nat) ≠ 500 := by
  constructor
  · rfl
  · decide

/-- Claim C8 as amended: the current-weather endpoint never surfaces a raw
exception — it always answers 200 with the upstream body, 404, or 500 —
but it does not distinguish failure kinds by status: every upstream non-ok
status, not-found or otherwise, yields the 404 City-not-found body, and
only a thrown fetch (network failure) yields the 500 body. -/
theorem weatherHandler_statuses (city : String) (r : Upstream String) :
    ((weatherHandler true city r).1 = 200 ∨ (weatherHandler true city r).1 = 404 ∨
      (weatherHandler true city r).1 = 500) ∧
      (∀ m, weatherHandler true city (.thrown m) =
        (500, .apiError "Internal server error" "Failed to fetch weather data")) ∧
      (∀ st b, respOk st = false → weatherHandler true city (.resp st b) =
        (404, .apiError "City not found" ("Could not find weather data for " ++ city))) ∧
      (∀ st b, respOk st = true → weatherHandler true city (.resp st b) =
        (200, .payload b)) := by
  refine ⟨?_, fun m => rfl, ?_, ?_⟩
  · unfold weatherHandler
    cases r with
    | thrown m => simp
    | resp st b =>
      by_cases h : respOk st = true
      · simp [h]
      · simp [Bool.not_eq_true] at h
        simp [h]
  · intro st b h
    unfold weatherHandler
    simp [h]
  · intro st b h
    unfold weatherHandler
    simp [h]

theorem weatherHandler_statuses_witness :
    respOk 404 = false ∧
      weatherHandler true "Qwxyzzy" (.resp 404 "") =
        (404, .apiError "City not found" "Could not find weather data for Qwxyzzy") :=
  ⟨by decide,
    (weatherHandler_statuses "Qwxyzzy" (.resp 404 "")).2.2.1 404 "" (by decide)⟩

/-- One geocoding item as consumed by the suggestions handler. -/
structure GeoItem where
  name : String
  country : String
  state : Option String
deriving DecidableEq

/-- One suggestion as produced by the suggestions handler. -/
structure Suggestion where
  name : String
  country : String
  state : Option String
  displayName : String
deriving DecidableEq

/-- The mapping applied to each geocoding item (server.js lines 246-251). -/
def mkSuggestion (item : GeoItem) : Suggestion :=
  { name := item.name
    country := item.country
    state := item.state
    displayName :=
      match item.state with
      | some s => item.name ++ ", " ++ s ++ ", " ++ item.country
      | none => item.name ++ ", " ++ item.country }

/-- The GET /api/suggestions/:query handler (server.js lines 228-258) as a
function of the API-key configuration and the geocoding fetch outcome. -/
def suggestionsHandler (hasKey : Bool) (query : String)
    (r : Upstream (List GeoItem)) : Nat × ApiBody (List Suggestion) :=
  if !hasKey then
    (500, .apiError "API key not configured"
      "OpenWeatherMap API key is not set on the server")
  else if query.length < 2 then (200, .payload [])
  else
    match r with
    | .thrown _ => (200, .payload [])
    | .resp st data =>
      if !respOk st then (200, .payload [])
      else (200, .payload (data.map mkSuggestion))

/-- Claim C9 counterexample: with no API key configured the checkApiKey
middleware answers 500, so the suggestions endpoint does not always respond
with HTTP 200. -/
theorem suggestionsHandler_missing_key_500 :
    suggestionsHandler false "London" (.resp 200 []) =
        (500, .apiError "API key not configured"
          "OpenWeatherMap API key is not set on the server") ∧
      (500 : Nat) ≠ 200 := by
  constructor
  · rfl
  · decide

/-- Claim C9 as amended: once the API key is configured, the suggestions
endpoint always responds HTTP 200, with an empty array when the query is
shorter than 2 characters or the upstream lookup fails; with no API key
configured it responds 500 like the other weather endpoints. -/
theorem suggestionsHandler_always_200 (query : String)
    (r : Upstream (List GeoItem)) :
    (suggestionsHandler true query r).1 = 200 ∧
      (query.length < 2 → suggestionsHandler true query r = (200, .payload [])) ∧
      (upstreamFails r = true → suggestionsHandler true query r = (200, .payload [])) := by
  refine ⟨?_, ?_, ?_⟩
  · unfold suggestionsHandler
    by_cases hq : query.length < 2
    · simp [hq]
    · simp only [Bool.not_true, Bool.false_eq_true, if_false, hq]
      cases r with
      | thrown m => rfl
      | resp st b =>
        by_cases h : respOk st = true
        · simp [h]
        · simp [Bool.not_eq_true] at h
          simp [h]
  · intro hq
    unfold suggestionsHandler
    simp [hq]
  · intro hf
    unfold suggestionsHandler
    by_cases hq : query.length < 2
    · simp [hq]
    · simp only [Bool.not_true, Bool.false_eq_true, if_false, hq]
      cases r with
      | thrown m => rfl
      | resp st b =>
        rw [upstreamFails] at hf
        simp [hf]

theorem suggestionsHandler_always_200_witness :
    upstreamFails (Upstream.resp 500 ([] : List GeoItem)) = true ∧
      suggestionsHandler true "London" (.resp 500 []) = (200, .payload []) :=
  ⟨by decide,
    (suggestionsHandler_always_200 "London" (.resp 500 [])).2.2 (by decide)⟩

/-- One entry of the demo-mode hourly dataset built by enableDemoMode. -/
structure DemoHourlyEntry where
  time : Nat
  temp : ℤ
  description : String
  icon : String
  humidity : ℤ
  windSpeed : ℤ
deriving DecidableEq

/-- The sampleHourly loop of enableDemoMode (script.js lines 982-992): for
i from 1 to 24, one entry i hours ahead of now, with temperature, choice
indices, humidity and wind speed drawn from Math.random.  The random source
is the stream rng, read in the call order of the loop body (five draws per
iteration), each draw a rational in [0, 1). -/
def sampleHourly (now : Nat) (rng : Nat → ℚ) : List DemoHourlyEntry :=
  (List.range 24).map fun j =>
    { time := now + (j + 1) * 60 * 60 * 1000
      temp := ⌊rng (5 * j) * 10⌋ + 15
      description :=
        ["Sunny", "Cloudy", "Partly cloudy"].getD (⌊rng (5 * j + 1) * 3⌋).toNat ""
      icon := ["☀️", "☁️", "⛅"].getD (⌊rng (5 * j + 2) * 3⌋).toNat ""
      humidity := ⌊rng (5 * j + 3) * 30⌋ + 50
      windSpeed := ⌊rng (5 * j + 4) * 15⌋ + 5 }

lemma randFloor_bounds (r : ℚ) (m : ℕ) (hm : 0 < m) (h0 : 0 ≤ r) (h1 : r < 1) :
    0 ≤ ⌊r * (m : ℚ)⌋ ∧ ⌊r * (m : ℚ)⌋ ≤ (m : ℤ) - 1 := by
  have hm0 : (0 : ℚ) < (m : ℚ) := by exact_mod_cast hm
  constructor
  · exact Int.floor_nonneg.mpr (mul_nonneg h0 (le_of_lt hm0))
  · have h2 : ⌊r * (m : ℚ)⌋ < (m : ℤ) := by
      apply Int.floor_lt.mpr
      push_cast
      calc r * (m : ℚ) < 1 * (m : ℚ) := mul_lt_mul_of_pos_right h1 hm0
        _ = (m : ℚ) := one_mul _
    omega

/-- Claim C10: for every outcome of the random source (each draw in
[0, 1)), the demo-mode hourly dataset has exactly 24 entries with strictly
increasing, hour-spaced timestamps, and every entry has an integer
temperature in [15, 24], humidity in [50, 79] and wind speed in [5, 19]. -/
theorem sampleHourly_bounds (now : Nat) (rng : Nat → ℚ)
    (hrng : ∀ n, 0 ≤ rng n ∧ rng n < 1) :
    (sampleHourly now rng).length = 24 ∧
      (sampleHourly now rng).map (fun e => e.time) =
        (List.range 24).map (fun j => now + (j + 1) * 60 * 60 * 1000) ∧
      (sampleHourly now rng).Pairwise (fun a b => a.time < b.time) ∧
      ∀ e ∈ sampleHourly now rng,
        (15 ≤ e.temp ∧ e.temp ≤ 24) ∧ (50 ≤ e.humidity ∧ e.humidity ≤ 79) ∧
          (5 ≤ e.windSpeed ∧ e.windSpeed ≤ 19) := by
  refine ⟨by simp [sampleHourly], ?_, ?_, ?_⟩
  · rw [sampleHourly, List.map_map]
    rfl
  · rw [sampleHourly, List.pairwise_map]
    apply (List.pairwise_lt_range 24).imp
    intro i j hij
    simp only []
    omega
  · intro e he
    rw [sampleHourly] at he
    rcases List.mem_map.mp he with ⟨j, _, rfl⟩
    obtain ⟨ht0, ht1⟩ := randFloor_bounds (rng (5 * j)) 10 (by omega)
      (hrng (5 * j)).1 (hrng (5 * j)).2
    obtain ⟨hh0, hh1⟩ := randFloor_bounds (rng (5 * j + 3)) 30 (by omega)
      (hrng (5 * j + 3)).1 (hrng (5 * j + 3)).2
    obtain ⟨hw0, hw1⟩ := randFloor_bounds (rng (5 * j + 4)) 15 (by omega)
      (hrng (5 * j + 4)).1 (hrng (5 * j + 4)).2
    norm_num at ht0 ht1 hh0 hh1 hw0 hw1 ⊢
    omega

theorem sampleHourly_bounds_witness :
    (∀ n : Nat, 0 ≤ (fun _ : Nat => (1 : ℚ) / 2) n ∧
        (fun _ : Nat => (1 : ℚ) / 2) n < 1) ∧
      ((sampleHourly 0 (fun _ => (1 : ℚ) / 2)).length = 24 ∧
        (sampleHourly 0 (fun _ => (1 : ℚ) / 2)).map (fun e => e.time) =
          (List.range 24).map (fun j => 0 + (j + 1) * 60 * 60 * 1000) ∧
        (sampleHourly 0 (fun _ => (1 : ℚ) / 2)).Pairwise (fun a b => a.time < b.time) ∧
        ∀ e ∈ sampleHourly 0 (fun _ => (1 : ℚ) / 2),
          (15 ≤ e.temp ∧ e.temp ≤ 24) ∧ (50 ≤ e.humidity ∧ e.humidity ≤ 79) ∧
            (5 ≤ e.windSpeed ∧ e.windSpeed ≤ 19)) :=
  ⟨fun _ => ⟨by norm_num, by norm_num⟩,
    sampleHourly_bounds 0 (fun _ => (1 : ℚ) / 2)
      (fun _ => ⟨by norm_num, by norm_num⟩)⟩

end WeatherDashboard
